import Mathlib

/-!
# Verification of the Jenkins-on-ECS deployment topology assembler

A shallow embedding of `src/lib/app-stack.ts` (the `AppStack` CDK stack) and of
the entry-point script (`bin` script, `src/unnamed/part_000`).  The stack
constructor is a straight-line sequence of resource declarations; we model it
as a pure function from the constructor's input (`props`) to a record of all
declarations it produces, mirroring the source line by line.

Modelling conventions:
* Cross-resource references (the source passes construct objects such as
  `vpc`, `cluster`, `taskDef`, `fs`, `accessPoint`, or deploy-time attribute
  tokens such as `fs.fileSystemId` and `accessPoint.accessPointId`) are
  modelled as values of the enumeration `Res`, one constructor per
  construction site: object identity in the source is per construction site
  and independent of the name strings.
* `Duration` is modelled in seconds.
* Every construct records its `treePath`: the list of construct ids from the
  stack root down to it.  Library helper methods scope the construct they
  create under their receiver: `ecs.Cluster` creates its implicit VPC as a
  child named `Vpc`; `fs.addAccessPoint`, `taskDef.addContainer`,
  `lb.addListener` create children of the receiver; `listener.addTargets`
  creates the target group as a child of the listener with the given id
  suffixed `Group`.
* `Tags.of(c).add(k, v)` attaches a tag aspect to construct `c`; at synthesis
  the aspect applies the tag to every taggable construct in the subtree rooted
  at `c`.  We record the pairs (subtree root path, tag) in `taggedSubtrees`
  and define `carriesTag` as membership of an ancestor in that list.
* Mutating calls (`taskDef.addVolume`, `taskDef.addContainer`,
  `cd.addMountPoints`, `lb.addListener`, `lbListener.addTargets`) are
  flattened into functional updates in the same order as the source.
-/

namespace AppCdk

/-- A reference to one of the constructs declared by the stack (or to the
cluster's implicit VPC).  In the source these are TypeScript object references
or deploy-time attribute tokens (`fs.fileSystemId`, `accessPoint.accessPointId`,
arns); one constructor per construction site. -/
inductive Res where
  | cluster
  | vpc
  | fs
  | accessPoint
  | taskDef
  | container
  | service
  | lb
  | listener
  | targetGroup
deriving DecidableEq, Repr

/-- `aws-cdk-lib` `RemovalPolicy` (the two members this stack could use). -/
inductive RemovalPolicy where
  | destroy
  | retain
deriving DecidableEq, Repr

/-- `aws-cdk-lib` `Duration`, modelled in seconds. -/
structure Duration where
  seconds : Nat
deriving DecidableEq, Repr

def Duration.minutes (n : Nat) : Duration := ⟨n * 60⟩

/-- `ec2.Port`: a protocol plus a port number. -/
structure Port where
  protocol : String
  port : Nat
deriving DecidableEq, Repr

def Port.tcp (n : Nat) : Port := ⟨"tcp", n⟩

/-- A resource tag, as added by `Tags.of(resource).add(key, value)`. -/
structure Tag where
  key : String
  value : String
deriving DecidableEq, Repr

/-- `AppProps` from the source: `appName` and `account` (the `StackProps`
fields the model does not consume are omitted). -/
structure AppProps where
  appName : String
  account : String
deriving DecidableEq, Repr

/-- JavaScript `x || ''` on a possibly-undefined string: `undefined` and the
empty string (both falsy) yield `''`. -/
def jsOrEmpty : Option String → String
  | none => ""
  | some s => if s = "" then "" else s

/-- JavaScript string coercion of a possibly-undefined value when concatenated
with a string: `undefined` coerces to the string `"undefined"`. -/
def jsCoerce : Option String → String
  | none => "undefined"
  | some s => s

/-- `ecs.Cluster` declaration. -/
structure ClusterDecl where
  id : String
  clusterName : String
  treePath : List String
deriving DecidableEq, Repr

/-- The cluster's implicit VPC (`cluster.vpc`; the cluster constructs it as a
child named `Vpc` when none is supplied). -/
structure VpcDecl where
  id : String
  treePath : List String
deriving DecidableEq, Repr

/-- `efs.FileSystem` declaration. -/
structure FileSystemDecl where
  id : String
  vpc : Res
  fileSystemName : String
  removalPolicy : RemovalPolicy
  treePath : List String
deriving DecidableEq, Repr

/-- `posixUser` block of the access-point props. -/
structure PosixUser where
  uid : String
  gid : String
deriving DecidableEq, Repr

/-- `createAcl` block of the access-point props. -/
structure CreateAcl where
  ownerGid : String
  ownerUid : String
  permissions : String
deriving DecidableEq, Repr

/-- `fs.addAccessPoint` declaration; `fileSystem` is the receiver. -/
structure AccessPointDecl where
  id : String
  fileSystem : Res
  path : String
  posixUser : PosixUser
  createAcl : CreateAcl
  treePath : List String
deriving DecidableEq, Repr

/-- `authorizationConfig` block of an EFS volume configuration. -/
structure AuthorizationConfig where
  accessPointId : Res
  iam : String
deriving DecidableEq, Repr

/-- `efsVolumeConfiguration` block of a task-definition volume. -/
structure EfsVolumeConfiguration where
  fileSystemId : Res
  transitEncryption : String
  authorizationConfig : AuthorizationConfig
deriving DecidableEq, Repr

/-- A task-definition volume (`taskDef.addVolume`). -/
structure Volume where
  name : String
  efsVolumeConfiguration : EfsVolumeConfiguration
deriving DecidableEq, Repr

/-- A container port mapping. -/
structure PortMapping where
  containerPort : Nat
deriving DecidableEq, Repr

/-- A container mount point (`cd.addMountPoints`). -/
structure MountPoint where
  containerPath : String
  sourceVolume : String
  readOnly : Bool
deriving DecidableEq, Repr

/-- A container declaration (`taskDef.addContainer`).  `logStream` models
`ecs.LogDrivers.awsLogs` with the given stream-name parameter. -/
structure ContainerDecl where
  id : String
  image : String
  logStream : String
  portMappings : List PortMapping
  mountPoints : List MountPoint
  treePath : List String
deriving DecidableEq, Repr

/-- `ecs.FargateTaskDefinition` declaration, together with the volumes and
containers subsequently added to it. -/
structure TaskDefDecl where
  id : String
  family : String
  cpu : Nat
  memoryLimitMiB : Nat
  volumes : List Volume
  containers : List ContainerDecl
  treePath : List String
deriving DecidableEq, Repr

def TaskDefDecl.addVolume (td : TaskDefDecl) (v : Volume) : TaskDefDecl :=
  { td with volumes := td.volumes ++ [v] }

def TaskDefDecl.addContainer (td : TaskDefDecl) (c : ContainerDecl) : TaskDefDecl :=
  { td with containers := td.containers ++ [c] }

def ContainerDecl.addMountPoints (c : ContainerDecl) (mp : MountPoint) : ContainerDecl :=
  { c with mountPoints := c.mountPoints ++ [mp] }

/-- `ecs.FargateService` declaration. -/
structure ServiceDecl where
  id : String
  serviceName : String
  cluster : Res
  taskDefinition : Res
  desiredCount : Nat
  maxHealthyPercent : Nat
  minHealthyPercent : Nat
  healthCheckGracePeriod : Duration
  treePath : List String
deriving DecidableEq, Repr

/-- A network rule created by `x.connections.allowTo(y, port)`. -/
structure ConnectionRule where
  source : Res
  dest : Res
  port : Port
deriving DecidableEq, Repr

/-- `elbv2.ApplicationLoadBalancer` declaration. -/
structure LoadBalancerDecl where
  id : String
  loadBalancerName : String
  vpc : Res
  internetFacing : Bool
  treePath : List String
deriving DecidableEq, Repr

/-- `lb.addListener` declaration; `loadBalancer` is the receiver. -/
structure ListenerDecl where
  id : String
  loadBalancer : Res
  port : Nat
  treePath : List String
deriving DecidableEq, Repr

/-- `healthCheck` block of the target-group props (the source sets only the
path; the library defaults the protocol to HTTP). -/
structure HealthCheck where
  path : String
deriving DecidableEq, Repr

/-- `lbListener.addTargets` declaration; `listener` is the receiver. -/
structure TargetGroupDecl where
  id : String
  listener : Res
  port : Nat
  targets : List Res
  deregistrationDelay : Duration
  healthCheck : HealthCheck
  treePath : List String
deriving DecidableEq, Repr

/-- Everything the `AppStack` constructor declares, as a record.  `listeners`
and `targetGroups` collect the results of `lb.addListener` and
`lbListener.addTargets` (one each in this stack); `connections` collects
`connections.allowTo` rules; `taggedSubtrees` collects the `Tags.of(x).add`
aspects (subtree root path, tag). -/
structure AppStackModel where
  appName : String
  cluster : ClusterDecl
  vpc : VpcDecl
  fs : FileSystemDecl
  accessPoint : AccessPointDecl
  taskDef : TaskDefDecl
  fService : ServiceDecl
  connections : List ConnectionRule
  lb : LoadBalancerDecl
  listeners : List ListenerDecl
  targetGroups : List TargetGroupDecl
  taggedSubtrees : List (List String × Tag)
deriving DecidableEq, Repr

/-- The tag `addAppTag` adds: `{key: 'AppName', value: this.appName}`. -/
def appTag (appName : String) : Tag := ⟨"AppName", appName⟩

/-- The `AppStack` constructor, `src/lib/app-stack.ts` lines 27-141, as a pure
function of `props` (`props?` in the source, hence `Option`). -/
def assemble (props : Option AppProps) : AppStackModel :=
  -- this.appName = props?.appName || '';
  let appName := jsOrEmpty (props.map AppProps.appName)
  let jenkinsHomeDir := "jenkins-home"
  -- Setup ECS Cluster
  let clusterPath := [appName ++ "-cluster"]
  let cluster : ClusterDecl :=
    { id := appName ++ "-cluster"
      clusterName := appName
      treePath := clusterPath }
  -- const vpc = cluster.vpc  (implicit child 'Vpc' of the cluster)
  let vpcPath := clusterPath ++ ["Vpc"]
  let vpc : VpcDecl := { id := "Vpc", treePath := vpcPath }
  -- Setup EFS for cluster
  let fsPath := [appName ++ "-efs"]
  let fs : FileSystemDecl :=
    { id := appName ++ "-efs"
      vpc := Res.vpc
      fileSystemName := appName
      removalPolicy := RemovalPolicy.destroy
      treePath := fsPath }
  -- Setup access point
  let apPath := fsPath ++ [appName ++ "-ap"]
  let accessPoint : AccessPointDecl :=
    { id := appName ++ "-ap"
      fileSystem := Res.fs
      path := "/" ++ jenkinsHomeDir
      posixUser := { uid := "1000", gid := "1000" }
      createAcl := { ownerGid := "1000", ownerUid := "1000", permissions := "755" }
      treePath := apPath }
  -- Setup task def
  let taskPath := [appName ++ "-task"]
  let taskDef0 : TaskDefDecl :=
    { id := appName ++ "-task"
      family := appName
      cpu := 1024
      memoryLimitMiB := 2048
      volumes := []
      containers := []
      treePath := taskPath }
  -- Add volume
  let taskDef1 := taskDef0.addVolume
    { name := jenkinsHomeDir
      efsVolumeConfiguration :=
        { fileSystemId := Res.fs
          transitEncryption := "ENABLED"
          authorizationConfig := { accessPointId := Res.accessPoint, iam := "ENABLED" } } }
  -- Add FS Container
  let cd0 : ContainerDecl :=
    { id := appName
      image := "jenkins/jenkins:lts"
      logStream := "jenkins"
      portMappings := [{ containerPort := 8080 }]
      mountPoints := []
      treePath := taskPath ++ [appName] }
  -- Add TD Mount
  let cd := cd0.addMountPoints
    { containerPath := "/var/jenkins_home"
      sourceVolume := jenkinsHomeDir
      readOnly := false }
  let taskDef := taskDef1.addContainer cd
  -- Setup Service
  let servicePath := [appName ++ "-service"]
  let fService : ServiceDecl :=
    { id := appName ++ "-service"
      serviceName := appName
      cluster := Res.cluster
      taskDefinition := Res.taskDef
      desiredCount := 1
      maxHealthyPercent := 100
      minHealthyPercent := 0
      healthCheckGracePeriod := Duration.minutes 5
      treePath := servicePath }
  -- fService.connections.allowTo(fs, Port.tcp(2049))
  let connections : List ConnectionRule :=
    [{ source := Res.service, dest := Res.fs, port := Port.tcp 2049 }]
  -- Setup ALB
  let lbPath := [appName ++ "-elb"]
  let lb : LoadBalancerDecl :=
    { id := appName ++ "-elb"
      loadBalancerName := appName
      vpc := Res.vpc
      internetFacing := true
      treePath := lbPath }
  -- ALB listener
  let listenerPath := lbPath ++ [appName ++ "-listener"]
  let lbListener : ListenerDecl :=
    { id := appName ++ "-listener"
      loadBalancer := Res.lb
      port := 80
      treePath := listenerPath }
  -- Add target (addTargets scopes the group under the listener, id + 'Group')
  let targetPath := listenerPath ++ [appName ++ "-target" ++ "Group"]
  let lbTarget : TargetGroupDecl :=
    { id := appName ++ "-target"
      listener := Res.listener
      port := 8080
      targets := [Res.service]
      deregistrationDelay := ⟨10⟩
      healthCheck := { path := "/login" }
      treePath := targetPath }
  -- addAppTag calls, in source order
  let tag := appTag appName
  { appName := appName
    cluster := cluster
    vpc := vpc
    fs := fs
    accessPoint := accessPoint
    taskDef := taskDef
    fService := fService
    connections := connections
    lb := lb
    listeners := [lbListener]
    targetGroups := [lbTarget]
    taggedSubtrees :=
      [(clusterPath, tag), (vpcPath, tag), (fsPath, tag), (apPath, tag),
       (taskPath, tag), (servicePath, tag), (lbPath, tag), (listenerPath, tag)] }

/-- `pathUnder p q`: `p` is an initial segment of `q` (so the construct at `q`
lies in the subtree rooted at the construct at `p`). -/
def pathUnder : List String → List String → Bool
  | [], _ => true
  | _ :: _, [] => false
  | a :: as, b :: bs => a == b && pathUnder as bs

/-- A construct at `treePath` carries tag `t` when some `Tags.of` aspect was
attached at an ancestor (or at the construct itself) with that tag. -/
def carriesTag (m : AppStackModel) (treePath : List String) (t : Tag) : Bool :=
  m.taggedSubtrees.any fun e => pathUnder e.1 treePath && e.2 == t

/-- The conjunction of "carries tag `t`" over every resource the stack
declares: the eight assets plus the container added to the task definition. -/
def allDeclaredTagged (m : AppStackModel) (t : Tag) : Bool :=
  carriesTag m m.cluster.treePath t &&
  carriesTag m m.fs.treePath t &&
  carriesTag m m.accessPoint.treePath t &&
  carriesTag m m.taskDef.treePath t &&
  m.taskDef.containers.all (fun c => carriesTag m c.treePath t) &&
  carriesTag m m.fService.treePath t &&
  carriesTag m m.lb.treePath t &&
  m.listeners.all (fun l => carriesTag m l.treePath t) &&
  m.targetGroups.all (fun g => carriesTag m g.treePath t)

/-- The eight resources of the spec's dependency graph (the VPC and the
container are not nodes of that graph; they fold into their owners). -/
def specNodes : List Res :=
  [Res.cluster, Res.fs, Res.accessPoint, Res.taskDef,
   Res.service, Res.lb, Res.listener, Res.targetGroup]

/-- Fold a reference to the granularity of the spec's graph: the implicit VPC
belongs to the cluster, the container to the task definition. -/
def collapse : Res → Res
  | Res.vpc => Res.cluster
  | Res.container => Res.taskDef
  | r => r

/-- The references each declaration makes, read off the assembled model: the
constructor arguments that name another construct or one of its deploy-time
attribute tokens, plus (for the service) the targets of its `allowTo` rules. -/
def refsOf (m : AppStackModel) : Res → List Res
  | Res.cluster => []
  | Res.vpc => []
  | Res.fs => [m.fs.vpc]
  | Res.accessPoint => [m.accessPoint.fileSystem]
  | Res.taskDef => m.taskDef.volumes.flatMap fun v =>
      [v.efsVolumeConfiguration.fileSystemId,
       v.efsVolumeConfiguration.authorizationConfig.accessPointId]
  | Res.container => []
  | Res.service =>
      [m.fService.cluster, m.fService.taskDefinition] ++
        m.connections.filterMap
          (fun c => if c.source == Res.service then some c.dest else none)
  | Res.lb => [m.lb.vpc]
  | Res.listener => m.listeners.map ListenerDecl.loadBalancer
  | Res.targetGroup => m.targetGroups.flatMap fun g => g.listener :: g.targets

/-- `a` depends on `b` when some declaration reference of `a` resolves (at the
spec's eight-node granularity) to `b`. -/
def dependsOn (m : AppStackModel) (a b : Res) : Bool :=
  ((refsOf m a).map collapse).contains b

/-- The dependency edge list of the assembled model, as (consumer, producer)
pairs over the eight spec nodes. -/
def codeEdges (m : AppStackModel) : List (Res × Res) :=
  specNodes.flatMap fun a => (specNodes.filter (dependsOn m a)).map fun b => (a, b)

/-- The edge set the spec's section 3 asserts, read off its words: the chain
cluster → file system → access point → task definition → service → load
balancer → listener → target group (each arrow read as "the right side depends
on the left"), plus the service on the cluster and the target group on the
service. -/
def specClaimedEdges : List (Res × Res) :=
  [(Res.fs, Res.cluster), (Res.accessPoint, Res.fs),
   (Res.taskDef, Res.accessPoint), (Res.service, Res.taskDef),
   (Res.lb, Res.service), (Res.listener, Res.lb),
   (Res.targetGroup, Res.listener), (Res.service, Res.cluster),
   (Res.targetGroup, Res.service)]

/-- The dependency edges the code actually declares: the spec's edges without
load-balancer-on-service, plus task-definition-on-file-system (the volume's
`fileSystemId`), service-on-file-system (the NFS `allowTo` rule) and
load-balancer-on-cluster (the cluster's implicit VPC). -/
def actualEdges : List (Res × Res) :=
  [(Res.fs, Res.cluster),
   (Res.accessPoint, Res.fs),
   (Res.taskDef, Res.fs), (Res.taskDef, Res.accessPoint),
   (Res.service, Res.cluster), (Res.service, Res.fs), (Res.service, Res.taskDef),
   (Res.lb, Res.cluster),
   (Res.listener, Res.lb),
   (Res.targetGroup, Res.service), (Res.targetGroup, Res.listener)]

/-- Assembly position of each node: the order in which the constructor
declares the eight resources. -/
def nodeRank : Res → Nat
  | Res.cluster => 0
  | Res.vpc => 0
  | Res.fs => 1
  | Res.accessPoint => 2
  | Res.taskDef => 3
  | Res.container => 3
  | Res.service => 4
  | Res.lb => 5
  | Res.listener => 6
  | Res.targetGroup => 7

/-- An edge list is acyclic when every consumer sits strictly later in the
assembly order than each of its producers (a strict topological ranking). -/
def acyclicBy (edges : List (Res × Res)) : Bool :=
  edges.all fun e => nodeRank e.2 < nodeRank e.1

/-- The construct identifiers passed at the eight `assetName` declaration
sites, in declaration order. -/
def assetIds (m : AppStackModel) : List String :=
  [m.cluster.id, m.fs.id, m.accessPoint.id, m.taskDef.id, m.fService.id, m.lb.id] ++
    m.listeners.map ListenerDecl.id ++ m.targetGroups.map TargetGroupDecl.id

/-- The process environment the entry-point script reads. -/
structure EntryEnv where
  APP_NAME : Option String
  DEV_ACCOUNT : Option String
  DEV_REGION : Option String
deriving DecidableEq, Repr

/-- The stack id the entry point passes: `process.env.APP_NAME + '-app-stack'`
(JavaScript coerces an undefined variable to the string `"undefined"`). -/
def entryStackId (env : EntryEnv) : String :=
  jsCoerce env.APP_NAME ++ "-app-stack"

/-- The props the entry point passes:
`{appName: process.env.APP_NAME || '', account: process.env.DEV_ACCOUNT || ''}`. -/
def entryProps (env : EntryEnv) : AppProps :=
  { appName := jsOrEmpty env.APP_NAME, account := jsOrEmpty env.DEV_ACCOUNT }

/-- C1: for every valid non-empty application name, each of the declared
resources — cluster, file system, access point, task definition, container,
service, load balancer, listener and target group — carries the tag
`{key: "AppName", value: applicationName}` after assembly completes.  The
container and the target group receive it through the tag aspects attached to
the task definition and the listener, whose construct subtrees contain them. -/
theorem C1_every_declared_resource_tagged (appName account : String)
    (h : appName ≠ "") :
    allDeclaredTagged (assemble (some ⟨appName, account⟩))
      ⟨"AppName", appName⟩ = true := by
  simp [assemble, allDeclaredTagged, carriesTag, pathUnder, jsOrEmpty, appTag, h,
    TaskDefDecl.addVolume, TaskDefDecl.addContainer, ContainerDecl.addMountPoints]

/-- Witness for C1 at the concrete application name `"ci"`. -/
theorem C1_every_declared_resource_tagged_witness :
    ("ci" : String) ≠ "" ∧
      allDeclaredTagged (assemble (some ⟨"ci", "111111111111"⟩))
        ⟨"AppName", "ci"⟩ = true :=
  ⟨by decide, C1_every_declared_resource_tagged "ci" "111111111111" (by decide)⟩

/-- C2 counterexample: the spec's section-3 edge set asserts that the load
balancer depends on the service (the chain arrow service → load balancer), but
in the assembled model the load balancer's declaration references only the
cluster's implicit VPC, so that edge is absent from the code's dependency
graph — the claimed edge set and the code's edge set differ. -/
theorem C2_counterexample :
    (Res.lb, Res.service) ∈ specClaimedEdges ∧
      (Res.lb, Res.service) ∉ codeEdges (assemble (some ⟨"ci", "111111111111"⟩)) ∧
      codeEdges (assemble (some ⟨"ci", "111111111111"⟩)) ≠ specClaimedEdges := by
  decide

/-- C2 amended: for every input, the assembled declarations form an acyclic
dependency graph whose edges are the spec's chain without the
load-balancer-on-service edge, plus task-definition-on-file-system,
service-on-file-system (the NFS rule) and load-balancer-on-cluster; in
particular the service depends on the cluster and the task definition, and the
target group depends on the listener and the service, while the load balancer
does not depend on the service. -/
theorem C2_dependency_dag (props : Option AppProps) :
    codeEdges (assemble props) = actualEdges ∧
      acyclicBy (codeEdges (assemble props)) = true ∧
      dependsOn (assemble props) Res.service Res.cluster = true ∧
      dependsOn (assemble props) Res.service Res.taskDef = true ∧
      dependsOn (assemble props) Res.targetGroup Res.listener = true ∧
      dependsOn (assemble props) Res.targetGroup Res.service = true ∧
      dependsOn (assemble props) Res.lb Res.service = false :=
  ⟨rfl, rfl, rfl, rfl, rfl, rfl, rfl⟩

/-- C3: assembling with application name `"ci"` produces exactly the construct
identifiers `ci-cluster`, `ci-efs`, `ci-ap`, `ci-task`, `ci-service`,
`ci-elb`, `ci-listener`, `ci-target`, and the service has desired count 1,
min healthy 0 %, max healthy 100 %, a 5-minute health-check grace period, and
a network rule letting it reach the file system on TCP 2049. -/
theorem C3_ci_end_to_end :
    assetIds (assemble (some ⟨"ci", "111111111111"⟩)) =
        ["ci-cluster", "ci-efs", "ci-ap", "ci-task",
         "ci-service", "ci-elb", "ci-listener", "ci-target"] ∧
      (assemble (some ⟨"ci", "111111111111"⟩)).fService.desiredCount = 1 ∧
      (assemble (some ⟨"ci", "111111111111"⟩)).fService.minHealthyPercent = 0 ∧
      (assemble (some ⟨"ci", "111111111111"⟩)).fService.maxHealthyPercent = 100 ∧
      (assemble (some ⟨"ci", "111111111111"⟩)).fService.healthCheckGracePeriod =
        Duration.minutes 5 ∧
      (assemble (some ⟨"ci", "111111111111"⟩)).connections =
        [⟨Res.service, Res.fs, Port.tcp 2049⟩] := by
  decide

/-- C4: for every input, the file system is declared with removal policy
`destroy`. -/
theorem C4_removal_policy_destroy (props : Option AppProps) :
    (assemble props).fs.removalPolicy = RemovalPolicy.destroy :=
  rfl

/-- C5: for every input, the task definition declares exactly one container,
one volume and one port mapping (container port 8080), reserves CPU 1024 and
memory 2048 MiB, its volume's authorization points at the declared access
point, and that access point uses path `/jenkins-home`, POSIX uid/gid 1000 and
permissions 755. -/
theorem C5_task_definition_shape (props : Option AppProps) :
    (assemble props).taskDef.containers.length = 1 ∧
      (assemble props).taskDef.volumes.length = 1 ∧
      (assemble props).taskDef.containers.map ContainerDecl.portMappings =
        [[⟨8080⟩]] ∧
      (assemble props).taskDef.cpu = 1024 ∧
      (assemble props).taskDef.memoryLimitMiB = 2048 ∧
      (assemble props).taskDef.volumes.map
          (fun v => v.efsVolumeConfiguration.authorizationConfig.accessPointId) =
        [Res.accessPoint] ∧
      (assemble props).accessPoint.path = "/jenkins-home" ∧
      (assemble props).accessPoint.posixUser = ⟨"1000", "1000"⟩ ∧
      (assemble props).accessPoint.createAcl = ⟨"1000", "1000", "755"⟩ :=
  ⟨rfl, rfl, rfl, rfl, rfl, rfl, rfl, rfl, rfl⟩

/-- C6: for every input, the load balancer is internet-facing, carries exactly
one listener and that listener is on port 80, and the listener's only target
group forwards to port 8080 with a 10-second deregistration delay and a health
check on path `/login` (the source configures only the path; the library's
default health-check protocol is HTTP). -/
theorem C6_load_balancer_shape (props : Option AppProps) :
    (assemble props).lb.internetFacing = true ∧
      (assemble props).listeners.map (fun l => (l.loadBalancer, l.port)) =
        [(Res.lb, 80)] ∧
      (assemble props).targetGroups.map
          (fun g => (g.listener, g.port, g.targets, g.deregistrationDelay,
            g.healthCheck)) =
        [(Res.listener, 8080, [Res.service], ⟨10⟩, ⟨"/login"⟩)] :=
  ⟨rfl, rfl, rfl⟩

/-- C7: for every input, the eight construct identifiers are
`{applicationName}-{suffix}` for the suffixes `-cluster`, `-efs`, `-ap`,
`-task`, `-service`, `-elb`, `-listener`, `-target`, and the cluster name,
file system name, service name, load balancer name and task-definition family
all equal the bare application name. -/
theorem C7_naming_convention (props : Option AppProps) :
    assetIds (assemble props) =
        [(assemble props).appName ++ "-cluster",
         (assemble props).appName ++ "-efs",
         (assemble props).appName ++ "-ap",
         (assemble props).appName ++ "-task",
         (assemble props).appName ++ "-service",
         (assemble props).appName ++ "-elb",
         (assemble props).appName ++ "-listener",
         (assemble props).appName ++ "-target"] ∧
      (assemble props).cluster.clusterName = (assemble props).appName ∧
      (assemble props).fs.fileSystemName = (assemble props).appName ∧
      (assemble props).fService.serviceName = (assemble props).appName ∧
      (assemble props).lb.loadBalancerName = (assemble props).appName ∧
      (assemble props).taskDef.family = (assemble props).appName :=
  ⟨rfl, rfl, rfl, rfl, rfl, rfl⟩

/-- C8: for every input, the task definition's single volume references the
file system with transit encryption ENABLED and IAM authorization ENABLED via
the access point, the container image is `jenkins/jenkins:lts`, and the volume
is mounted at `/var/jenkins_home` with `readOnly = false`. -/
theorem C8_volume_and_image (props : Option AppProps) :
    (assemble props).taskDef.volumes =
        [⟨"jenkins-home", ⟨Res.fs, "ENABLED", ⟨Res.accessPoint, "ENABLED"⟩⟩⟩] ∧
      (assemble props).taskDef.containers.map ContainerDecl.image =
        ["jenkins/jenkins:lts"] ∧
      (assemble props).taskDef.containers.map ContainerDecl.mountPoints =
        [[⟨"/var/jenkins_home", "jenkins-home", false⟩]] :=
  ⟨rfl, rfl, rfl⟩

/-- C9: a missing or empty application name raises no error: assembling with
`props` undefined yields the same model as an empty `appName`, with
application name `""`, identifiers `-cluster`, …, `-target` and tag value
`""`; and at the entry point an unset `APP_NAME` makes the stack id
`"undefined-app-stack"` while the `appName` passed to the stack is `""`. -/
theorem C9_missing_app_name :
    (assemble none).appName = "" ∧
      assetIds (assemble none) =
        ["-cluster", "-efs", "-ap", "-task",
         "-service", "-elb", "-listener", "-target"] ∧
      (assemble none).taggedSubtrees.all
        (fun e => e.2 == Tag.mk "AppName" "") = true ∧
      assemble (some ⟨"", "111111111111"⟩) = assemble none ∧
      entryStackId ⟨none, none, none⟩ = "undefined-app-stack" ∧
      (entryProps ⟨none, none, none⟩).appName = "" := by
  decide

/-- C10: for every input, the cluster's implicit VPC is tagged exactly like
the declared resources: `addAppTag` is called on it directly (its path with
the `AppName` tag is in the aspect list), so it carries the tag
`{AppName: applicationName}`. -/
theorem C10_vpc_tagged (props : Option AppProps) :
    ((assemble props).vpc.treePath, appTag (assemble props).appName) ∈
        (assemble props).taggedSubtrees ∧
      carriesTag (assemble props) (assemble props).vpc.treePath
        (appTag (assemble props).appName) = true := by
  refine ⟨by simp [assemble, appTag], ?_⟩
  simp [assemble, carriesTag, pathUnder, appTag]

end AppCdk
